import Mathlib

/-!
Verification of the Churn Risk Scoring Engine specification against the
Data-Telco repository.

The repository ships the React front end (`src/frontend/src/pages/`):
the churn-prediction form (`Segmentation.js`, `ChurnPrediction` component),
the gauge and factor rendering, and the report page (`Reports.js`).
The scoring engine itself runs behind `POST /api/churn/predict` and is not
part of the shipped sources; where a property depends on it, the engine is
modelled from the specification (each such definition carries a
`Modelled from the spec:` doc comment).  All front-end definitions are
shallow embeddings of the JavaScript in the repository.

Numbers: JavaScript floats are modelled as `ℚ`, integers as `ℤ`.
`parseFloat` / `parseInt` results are modelled as `Option`-values at the
point where the parse result enters the logic (`Option.none` models `NaN`).
-/

namespace DataTelco

/-! ## Engine data model (modelled from the spec, §3) -/

/-- Modelled from the spec: `contract_type`: enum {prepaid, postpaid} (§3). -/
inductive ContractType where
  | prepaid
  | postpaid
deriving DecidableEq, Repr

/-- Modelled from the spec: `internet_service`: enum {fiber, dsl, none} (§3);
the absent-service case is named `noService`. -/
inductive InternetService where
  | fiber
  | dsl
  | noService
deriving DecidableEq, Repr

/-- Modelled from the spec: `CustomerProfile` (§3), the validated input
record.  `tenure_months` and `complaint_count` are integers, usage volumes
and charges are floats (`ℚ`). -/
structure CustomerProfile where
  tenure_months : ℤ
  voice_usage_minutes : ℚ
  data_usage_gb : ℚ
  complaint_count : ℤ
  contract_type : ContractType
  monthly_charges : ℚ
  internet_service : InternetService
  online_security : Bool
  tech_support : Bool
  streaming_tv : Bool
deriving DecidableEq, Repr

/-- Modelled from the spec: the untyped request payload before the caller
parses it into a `CustomerProfile` (§6).  A required numeric field that is
missing or non-numeric after coercion attempts is `Option.none`. -/
structure RawProfile where
  tenure_months : Option ℤ
  voice_usage_minutes : Option ℚ
  data_usage_gb : Option ℚ
  complaint_count : Option ℤ
  contract_type : ContractType
  monthly_charges : Option ℚ
  internet_service : InternetService
  online_security : Bool
  tech_support : Bool
  streaming_tv : Bool
deriving DecidableEq, Repr

/-- Modelled from the spec: `ScoringConfig` (§4.1, §4.3, §4.4) — the
configuration object enumerating all magnitudes and thresholds.  The spec
gives every magnitude as a whole number of score points (24 points, 8
points per complaint, +15, …), so the point magnitudes are integers; the
usage floors are floats, compared against the float usage volumes. -/
structure ScoringConfig where
  tenure_cap : ℤ
  tenure_full_risk_months : ℤ
  complaint_weight : ℤ
  complaint_cap : ℤ
  prepaid_penalty : ℤ
  low_usage_voice_floor : ℚ
  low_usage_data_floor : ℚ
  low_usage_penalty : ℤ
  security_support_bonus : ℤ
  high_impact_threshold : ℤ
  medium_threshold : ℤ
  high_threshold : ℤ
deriving DecidableEq, Repr

/-- Modelled from the spec: `risk_level`: enum {Low, Medium, High} (§3). -/
inductive RiskLevel where
  | Low
  | Medium
  | High
deriving DecidableEq, Repr

/-- Modelled from the spec: `impact`: enum {low, medium, high, positive}
(§3, §9). -/
inductive Impact where
  | low
  | medium
  | high
  | positive
deriving DecidableEq, Repr

/-- Modelled from the spec: one explained factor — `{message, impact}`
(§3, `ScoreResult.factors` entry). -/
structure Factor where
  message : String
  impact : Impact
deriving DecidableEq, Repr

/-- Modelled from the spec: `ScoreResult` (§3). -/
structure ScoreResult where
  score : ℤ
  probability : ℚ
  risk_level : RiskLevel
  factors : List (String × Factor)
  recommendations : List String
deriving DecidableEq, Repr

/-- Modelled from the spec: the engine error taxonomy (§7):
`ValidationError` carries the offending field, `ConfigError` is fatal at
initialization. -/
inductive EngineError where
  | validation (field : String)
  | config
deriving DecidableEq, Repr

/-! ## Validation (modelled from the spec, §6–§7) -/

/-- Modelled from the spec: a required integer field is rejected when
missing, non-numeric (`Option.none`) or negative (§6, §7). -/
def requireNonnegInt (field : String) (v : Option ℤ) : Except EngineError ℤ :=
  match v with
  | Option.none => Except.error (EngineError.validation field)
  | some n => if n < 0 then Except.error (EngineError.validation field) else Except.ok n

/-- Modelled from the spec: a required float field is rejected when
missing, non-numeric (`Option.none`) or negative (§6, §7). -/
def requireNonnegRat (field : String) (v : Option ℚ) : Except EngineError ℚ :=
  match v with
  | Option.none => Except.error (EngineError.validation field)
  | some q => if q < 0 then Except.error (EngineError.validation field) else Except.ok q

/-- Modelled from the spec: `monthly_charges` defaults to 50 when unset or
invalid (§3, §6); a negative value counts as invalid and also defaults. -/
def monthlyChargesOrDefault (v : Option ℚ) : ℚ :=
  match v with
  | Option.none => 50
  | some q => if q < 0 then 50 else q

/-- Modelled from the spec: the caller-side parse/validate step turning an
untyped payload into a `CustomerProfile` (§6), failing fast with
`ValidationError` on any required numeric field that is missing,
non-numeric or negative (§7). -/
def validateProfile (raw : RawProfile) : Except EngineError CustomerProfile :=
  match requireNonnegInt "tenure_months" raw.tenure_months with
  | Except.error e => Except.error e
  | Except.ok t =>
  match requireNonnegRat "voice_usage_minutes" raw.voice_usage_minutes with
  | Except.error e => Except.error e
  | Except.ok v =>
  match requireNonnegRat "data_usage_gb" raw.data_usage_gb with
  | Except.error e => Except.error e
  | Except.ok d =>
  match requireNonnegInt "complaint_count" raw.complaint_count with
  | Except.error e => Except.error e
  | Except.ok c =>
    Except.ok
      { tenure_months := t
        voice_usage_minutes := v
        data_usage_gb := d
        complaint_count := c
        contract_type := raw.contract_type
        monthly_charges := monthlyChargesOrDefault raw.monthly_charges
        internet_service := raw.internet_service
        online_security := raw.online_security
        tech_support := raw.tech_support
        streaming_tv := raw.streaming_tv }

/-- `true` exactly when every required numeric field of the payload is
present and non-negative (the validity condition of §7). -/
def requiredNumericFieldsOk (raw : RawProfile) : Bool :=
  raw.tenure_months.any (fun n => decide (0 ≤ n)) &&
  raw.voice_usage_minutes.any (fun q => decide (0 ≤ q)) &&
  raw.data_usage_gb.any (fun q => decide (0 ≤ q)) &&
  raw.complaint_count.any (fun n => decide (0 ≤ n))

/-! ## Feature Normalizer (modelled from the spec, §4.1) -/

/-- Modelled from the spec: tenure contribution
`max(0, tenure_full_risk_months − tenure_months)` capped at `tenure_cap`
(§4.1). -/
def tenureContribution (p : CustomerProfile) (cfg : ScoringConfig) : ℤ :=
  let uncapped :=
    if cfg.tenure_full_risk_months - p.tenure_months < 0 then 0
    else cfg.tenure_full_risk_months - p.tenure_months
  if cfg.tenure_cap < uncapped then cfg.tenure_cap else uncapped

/-- Modelled from the spec: complaints contribution
`complaint_count × complaint_weight` capped at `complaint_cap` (§4.1). -/
def complaintsContribution (p : CustomerProfile) (cfg : ScoringConfig) : ℤ :=
  let weighted := p.complaint_count * cfg.complaint_weight
  if cfg.complaint_cap < weighted then cfg.complaint_cap else weighted

/-- Modelled from the spec: prepaid contributes `prepaid_penalty`,
postpaid contributes 0 (§4.1). -/
def contractContribution (p : CustomerProfile) (cfg : ScoringConfig) : ℤ :=
  match p.contract_type with
  | ContractType.prepaid => cfg.prepaid_penalty
  | ContractType.postpaid => 0

/-- Modelled from the spec: very low voice AND data usage (both below the
configurable floors) contributes `low_usage_penalty`; usage at or above
either floor contributes 0 (§4.1). -/
def usageContribution (p : CustomerProfile) (cfg : ScoringConfig) : ℤ :=
  if p.voice_usage_minutes < cfg.low_usage_voice_floor ∧
      p.data_usage_gb < cfg.low_usage_data_floor
  then cfg.low_usage_penalty else 0

/-- Modelled from the spec: absence of `online_security` and of
`tech_support` each contribute `+security_support_bonus`; presence of
either reduces risk by the same fixed amount (a negative, protective
contribution) (§4.1). -/
def supportServicesContribution (p : CustomerProfile) (cfg : ScoringConfig) : ℤ :=
  (if p.online_security then -cfg.security_support_bonus else cfg.security_support_bonus) +
  (if p.tech_support then -cfg.security_support_bonus else cfg.security_support_bonus)

/-- Modelled from the spec: the Normalizer output — one signed contribution
per scored feature, keyed by feature_key (§3, §4.1).  The spec magnitudes
make every `weighted_value` a whole number of points, so contributions are
integers here. -/
def contributions (p : CustomerProfile) (cfg : ScoringConfig) : List (String × ℤ) :=
  [("tenure", tenureContribution p cfg),
   ("complaints", complaintsContribution p cfg),
   ("contract_type", contractContribution p cfg),
   ("usage", usageContribution p cfg),
   ("support_services", supportServicesContribution p cfg)]

/-! ## Score Aggregator and Risk Classifier (modelled from the spec, §4.2–§4.3) -/

/-- Modelled from the spec: the Aggregator sums all weighted values from
the Normalizer (§4.2), before clamping. -/
def rawTotal (p : CustomerProfile) (cfg : ScoringConfig) : ℤ :=
  (contributions p cfg).foldl (fun acc kv => acc + kv.2) 0

/-- Modelled from the spec: the composite score — the summed contributions
clamped to [0,100] (§4.2), an integer in [0,100] (§3). -/
def compositeScore (p : CustomerProfile) (cfg : ScoringConfig) : ℤ :=
  let t := rawTotal p cfg
  if t < 0 then 0 else if 100 < t then 100 else t

/-- Modelled from the spec: the Risk Classifier (§4.3):
score ≥ high_threshold → High; medium_threshold ≤ score < high_threshold →
Medium; score < medium_threshold → Low; each band boundary-inclusive on its
lower bound. -/
def classifyRiskLevel (s : ℤ) (cfg : ScoringConfig) : RiskLevel :=
  if cfg.high_threshold ≤ s then RiskLevel.High
  else if cfg.medium_threshold ≤ s then RiskLevel.Medium
  else RiskLevel.Low

/-- Severity order on risk levels: Low < Medium < High (used to state the
monotonicity property of §4.3/§8). -/
def severity : RiskLevel → ℕ
  | RiskLevel.Low => 0
  | RiskLevel.Medium => 1
  | RiskLevel.High => 2

/-! ## Factor Explainer (modelled from the spec, §4.4) -/

/-- Modelled from the spec: the impact tag of one feature, derived from
the sign and magnitude of its contribution (§4.4): contribution ≥
high-impact threshold → high; 0 < c < threshold → medium; c = 0 → low;
negative (protective) → positive. -/
def impactOf (c : ℤ) (cfg : ScoringConfig) : Impact :=
  if cfg.high_impact_threshold ≤ c then Impact.high
  else if 0 < c then Impact.medium
  else if c = 0 then Impact.low
  else Impact.positive

/-- Modelled from the spec: the human-readable message of each feature
(§4.4); the exact wording is unspecified, a fixed text per feature_key. -/
def featureMessage (key : String) : String :=
  if key = "tenure" then "customer tenure drives this contribution"
  else if key = "complaints" then "filed complaints drive this contribution"
  else if key = "contract_type" then "contract commitment drives this contribution"
  else if key = "usage" then "engagement level drives this contribution"
  else "security and support subscriptions drive this contribution"

/-- Modelled from the spec: the Factor Explainer (§4.4) — one factor per
feature the Normalizer evaluated, no silent omissions. -/
def explainFactors (p : CustomerProfile) (cfg : ScoringConfig) : List (String × Factor) :=
  (contributions p cfg).map
    (fun kv => (kv.1, { message := featureMessage kv.1, impact := impactOf kv.2 cfg }))

/-- The fixed feature-key set every scoring call explains (§3, §8). -/
def factorKeys : List String :=
  ["tenure", "complaints", "contract_type", "usage", "support_services"]

/-! ## Recommendation Generator (modelled from the spec, §4.5) -/

/-- Modelled from the spec: the fixed lookup table from feature_key to the
retention action (§4.5). -/
def recommendationText (key : String) : String :=
  if key = "tenure" then "propose a loyalty offer"
  else if key = "complaints" then "escalate to retention specialist"
  else if key = "contract_type" then "offer postpaid migration incentive"
  else if key = "usage" then "send personalized re-engagement campaign"
  else "offer bundled security and support trial"

/-- Modelled from the spec: the fixed feature-priority order breaking ties
(complaints > tenure > contract_type > usage > support_services, §4.5);
lower number = higher priority. -/
def featurePriority (key : String) : ℕ :=
  if key = "complaints" then 0
  else if key = "tenure" then 1
  else if key = "contract_type" then 2
  else if key = "usage" then 3
  else 4

/-- A factor qualifies for a recommendation when its impact is `high` or
`medium` (risk-increasing, §4.5). -/
def qualifiesForRecommendation : Impact → Bool
  | Impact.high => true
  | Impact.medium => true
  | _ => false

/-- The ranking of §4.5: descending contribution magnitude, ties broken by
the fixed feature-priority order.  `true` when `a` ranks at or before `b`. -/
def ranksBefore (a b : String × ℤ) : Bool :=
  decide (b.2 < a.2) || (decide (a.2 = b.2) && decide (featurePriority a.1 ≤ featurePriority b.1))

/-- Insert one entry into a list already ranked by `ranksBefore`. -/
def insertRanked (x : String × ℤ) : List (String × ℤ) → List (String × ℤ)
  | [] => [x]
  | y :: ys => if ranksBefore x y then x :: y :: ys else y :: insertRanked x ys

/-- Insertion sort by `ranksBefore` (deterministic ordering of §4.5). -/
def sortRanked : List (String × ℤ) → List (String × ℤ)
  | [] => []
  | x :: xs => insertRanked x (sortRanked xs)

/-- Modelled from the spec: the Recommendation Generator (§4.5) — one
recommendation per factor with impact `high` or `medium`, ranked by
descending contribution magnitude with the fixed tie-break order. -/
def recommend (p : CustomerProfile) (cfg : ScoringConfig) : List String :=
  let qualifying :=
    (contributions p cfg).filter (fun kv => qualifiesForRecommendation (impactOf kv.2 cfg))
  (sortRanked qualifying).map (fun kv => recommendationText kv.1)

/-! ## The score operation (modelled from the spec, §4, §6) -/

/-- Modelled from the spec: the pure scoring pipeline on a validated
profile (§4): Normalizer → Aggregator → Classifier, with Explainer and
Recommender over the same contributions; `probability = score / 100`
(§3). -/
def scoreProfile (p : CustomerProfile) (cfg : ScoringConfig) : ScoreResult :=
  let s := compositeScore p cfg
  { score := s
    probability := (s : ℚ) / 100
    risk_level := classifyRiskLevel s cfg
    factors := explainFactors p cfg
    recommendations := recommend p cfg }

/-- Modelled from the spec: the single exposed operation
`score(profile, config)` (§6): validates the untyped payload, then runs the
pure pipeline; fails with `ValidationError` without partially scoring.
(`ConfigError` belongs to engine initialization, §7, not to this path.) -/
def score (raw : RawProfile) (cfg : ScoringConfig) : Except EngineError ScoreResult :=
  match validateProfile raw with
  | Except.error e => Except.error e
  | Except.ok p => Except.ok (scoreProfile p cfg)

/-- The example default configuration of the spec (§4.1, §4.3 defaults;
floors and explainer threshold are illustrative constants fixed here). -/
def defaultConfig : ScoringConfig :=
  { tenure_cap := 24
    tenure_full_risk_months := 24
    complaint_weight := 8
    complaint_cap := 30
    prepaid_penalty := 15
    low_usage_voice_floor := 50
    low_usage_data_floor := 1
    low_usage_penalty := 10
    security_support_bonus := 5
    high_impact_threshold := 10
    medium_threshold := 40
    high_threshold := 70 }

/-! ## Front end: ChurnPrediction page (`src/frontend/src/pages/Segmentation.js`) -/

/-- Embeds `const rotation = (score / 100) * 180;` of `GaugeChart`
(Segmentation.js line 310): the needle rotation in degrees. -/
def gaugeRotation (s : ℚ) : ℚ :=
  s / 100 * 180

/-- Embeds the gauge colour selection of `GaugeChart`
(Segmentation.js lines 311–316): the component switches on the localized
risk-level string received from the API. -/
def gaugeColor (riskLevel : String) : String :=
  if riskLevel = "Élevé" then "#ef4444"
  else if riskLevel = "Moyen" then "#f59e0b"
  else "#10b981"

/-- Embeds `getRiskIcon` (Segmentation.js lines 395–404); the returned
icon component is represented by its name. -/
def getRiskIcon (level : String) : String :=
  if level = "Élevé" then "AlertTriangle"
  else if level = "Moyen" then "AlertCircle"
  else "CheckCircle"

/-- Embeds `getRiskClass` (Segmentation.js lines 406–415): the CSS badge
class of the risk-level badge. -/
def getRiskClass (level : String) : String :=
  if level = "Élevé" then "risk-high"
  else if level = "Moyen" then "risk-medium"
  else "risk-low"

/-- Embeds `monthly_charges: parseFloat(formData.monthly_charges) || 50`
of `handleSubmit` (Segmentation.js line 376).  The argument is the
`parseFloat` result (`Option.none` models `NaN`).  JavaScript `||` falls
through to 50 on every falsy left operand, which includes both `NaN` and
`0`. -/
def payloadMonthlyCharges (parsed : Option ℚ) : ℚ :=
  match parsed with
  | Option.none => 50
  | some v => if v = 0 then 50 else v

/-- Embeds `(prediction.probability * 100).toFixed(0)`
(Segmentation.js line 646): the churn probability displayed as a rounded
whole percentage. -/
def displayedChurnPercent (probability : ℚ) : ℤ :=
  round (probability * 100)

/-- Embeds the recommendations rendering
(Segmentation.js lines 695–707): one item per recommendation string,
displaying its 1-based index and text. -/
def renderedRecommendationItems (recs : List String) : List (ℕ × String) :=
  recs.enum.map (fun ir => (ir.1 + 1, ir.2))

/-! ## Front end: Reports page (`src/frontend/src/pages/Reports.js`) -/

/-- The report form state of `Reports` (Reports.js lines 25–28). -/
structure ReportFormData where
  title : String
  include_sections : List String
deriving DecidableEq, Repr

/-- Embeds `handleSectionToggle` (Reports.js lines 57–64): remove every
occurrence of the section id when present (`filter((s) => s !== sectionId)`),
append it otherwise (`[...prev.include_sections, sectionId]`); all other
form fields are spread unchanged. -/
def handleSectionToggle (sectionId : String) (prev : ReportFormData) : ReportFormData :=
  let sections :=
    if sectionId ∈ prev.include_sections then
      prev.include_sections.filter (fun s => s != sectionId)
    else
      prev.include_sections ++ [sectionId]
  { prev with include_sections := sections }

/-- The body `handleGeneratePDF` posts to `/api/reports/generate-pdf`
(Reports.js lines 75–77): the whole `formData`. -/
structure ReportRequest where
  title : String
  include_sections : List String
deriving DecidableEq, Repr

/-- The observable outcome of one `handleGeneratePDF` invocation:
whether an HTTP request was issued and with which body, whether the
empty-selection error toast fired, and the (unmodified) form state —
`handleGeneratePDF` never calls `setFormData`. -/
structure GenerateOutcome where
  httpRequest : Option ReportRequest
  emptySectionsError : Bool
  form : ReportFormData
deriving DecidableEq, Repr

/-- Embeds `handleGeneratePDF` (Reports.js lines 66–83): when
`include_sections.length === 0` it shows the error toast and returns
before any request; otherwise it posts `formData`. -/
def handleGeneratePDF (form : ReportFormData) : GenerateOutcome :=
  if form.include_sections.length = 0 then
    { httpRequest := Option.none, emptySectionsError := true, form := form }
  else
    { httpRequest := some { title := form.title, include_sections := form.include_sections }
      emptySectionsError := false
      form := form }

/-- Embeds the generate button condition
`disabled={loading || formData.include_sections.length === 0}`
(Reports.js line 186). -/
def generateButtonDisabled (loading : Bool) (form : ReportFormData) : Bool :=
  loading || form.include_sections.length == 0

/-! ## Concrete example inputs (§8 scenarios) -/

/-- `true` exactly when the score operation failed with a
`ValidationError` (§7). -/
def isValidationError : Except EngineError ScoreResult → Bool
  | Except.error (EngineError.validation _) => true
  | _ => false

/-- Scenario 1 of §8 as an untyped payload: tenure 60, no complaints,
postpaid, high usage, both support services on. -/
def lowRiskRaw : RawProfile :=
  { tenure_months := some 60, voice_usage_minutes := some 300, data_usage_gb := some 10,
    complaint_count := some 0, contract_type := ContractType.postpaid,
    monthly_charges := some 80, internet_service := InternetService.fiber,
    online_security := true, tech_support := true, streaming_tv := false }

/-- Scenario 1 of §8 as the validated profile `validateProfile lowRiskRaw`
produces. -/
def lowRiskProfile : CustomerProfile :=
  { tenure_months := 60, voice_usage_minutes := 300, data_usage_gb := 10,
    complaint_count := 0, contract_type := ContractType.postpaid,
    monthly_charges := 80, internet_service := InternetService.fiber,
    online_security := true, tech_support := true, streaming_tv := false }

/-- Scenario 4 of §8: the same payload with `complaint_count = -1`. -/
def negComplaintRaw : RawProfile :=
  { lowRiskRaw with complaint_count := some (-1) }

/-- The report form with every section deselected (Reports.js state after
toggling all four defaults off). -/
def emptyReportForm : ReportFormData :=
  { title := "Rapport Telco Analytics", include_sections := [] }

/-! ## Helper lemmas -/

/-- Every error `requireNonnegInt` produces is the `ValidationError` naming
its own field. -/
theorem requireNonnegInt_error_field {f : String} {v : Option ℤ} {e : EngineError}
    (h : requireNonnegInt f v = Except.error e) : e = EngineError.validation f := by
  unfold requireNonnegInt at h
  split at h
  · exact (Except.error.inj h).symm
  · split_ifs at h
    exact (Except.error.inj h).symm

/-- Every error `requireNonnegRat` produces is the `ValidationError` naming
its own field. -/
theorem requireNonnegRat_error_field {f : String} {v : Option ℚ} {e : EngineError}
    (h : requireNonnegRat f v = Except.error e) : e = EngineError.validation f := by
  unfold requireNonnegRat at h
  split at h
  · exact (Except.error.inj h).symm
  · split_ifs at h
    exact (Except.error.inj h).symm

/-- When `requireNonnegInt` succeeds, the field was present and
non-negative. -/
theorem requireNonnegInt_ok_any {f : String} {v : Option ℤ} {n : ℤ}
    (h : requireNonnegInt f v = Except.ok n) :
    v.any (fun m => decide (0 ≤ m)) = true := by
  unfold requireNonnegInt at h
  split at h
  · simp at h
  · split_ifs at h with hm
    simp [Option.any]
    omega

/-- When `requireNonnegRat` succeeds, the field was present and
non-negative. -/
theorem requireNonnegRat_ok_any {f : String} {v : Option ℚ} {q : ℚ}
    (h : requireNonnegRat f v = Except.ok q) :
    v.any (fun m => decide (0 ≤ m)) = true := by
  unfold requireNonnegRat at h
  split at h
  · simp at h
  · split_ifs at h with hm
    simp [Option.any]
    exact not_lt.mp hm

/-! ## Claim theorems -/

/-- C1: for every profile the score operation accepts, the result carries
an integer score with 0 ≤ score ≤ 100 and probability = score / 100; the
gauge renders the needle at rotation (score/100)·180 degrees, which stays
within [0,180], and the displayed churn percentage probability·100 equals
the score. -/
theorem score_result_bounds_and_gauge (raw : RawProfile) (cfg : ScoringConfig)
    (r : ScoreResult) (h : score raw cfg = Except.ok r) :
    0 ≤ r.score ∧ r.score ≤ 100 ∧
    r.probability = (r.score : ℚ) / 100 ∧
    gaugeRotation (r.score : ℚ) = (r.score : ℚ) / 100 * 180 ∧
    0 ≤ gaugeRotation (r.score : ℚ) ∧ gaugeRotation (r.score : ℚ) ≤ 180 ∧
    displayedChurnPercent r.probability = r.score := by
  unfold score at h
  split at h
  · exact absurd h (by simp)
  · rename_i p hv
    injection h with h
    subst h
    have h0 : 0 ≤ compositeScore p cfg := by
      unfold compositeScore
      dsimp only
      split_ifs <;> omega
    have h100 : compositeScore p cfg ≤ 100 := by
      unfold compositeScore
      dsimp only
      split_ifs <;> omega
    have hq0 : (0 : ℚ) ≤ ((compositeScore p cfg : ℤ) : ℚ) := by exact_mod_cast h0
    have hq100 : ((compositeScore p cfg : ℤ) : ℚ) ≤ 100 := by exact_mod_cast h100
    refine ⟨h0, h100, rfl, rfl, ?_, ?_, ?_⟩
    · unfold gaugeRotation
      exact mul_nonneg (div_nonneg hq0 (by norm_num)) (by norm_num)
    · unfold gaugeRotation
      calc ((compositeScore p cfg : ℤ) : ℚ) / 100 * 180
          ≤ 1 * 180 := by
            refine mul_le_mul_of_nonneg_right ?_ (by norm_num)
            rw [div_le_one (by norm_num)]
            exact hq100
        _ = 180 := by norm_num
    · show displayedChurnPercent ((compositeScore p cfg : ℚ) / 100) = compositeScore p cfg
      unfold displayedChurnPercent
      rw [div_mul_cancel₀ _ (by norm_num : (100 : ℚ) ≠ 0)]
      exact round_intCast _

/-- Witness for C1: the theorem applied at the concrete low-risk payload
of §8 scenario 1 under the default configuration. -/
theorem score_result_bounds_and_gauge_witness :
    0 ≤ (scoreProfile lowRiskProfile defaultConfig).score ∧
    (scoreProfile lowRiskProfile defaultConfig).score ≤ 100 ∧
    (scoreProfile lowRiskProfile defaultConfig).probability =
      ((scoreProfile lowRiskProfile defaultConfig).score : ℚ) / 100 ∧
    gaugeRotation ((scoreProfile lowRiskProfile defaultConfig).score : ℚ) =
      ((scoreProfile lowRiskProfile defaultConfig).score : ℚ) / 100 * 180 ∧
    0 ≤ gaugeRotation ((scoreProfile lowRiskProfile defaultConfig).score : ℚ) ∧
    gaugeRotation ((scoreProfile lowRiskProfile defaultConfig).score : ℚ) ≤ 180 ∧
    displayedChurnPercent (scoreProfile lowRiskProfile defaultConfig).probability =
      (scoreProfile lowRiskProfile defaultConfig).score :=
  score_result_bounds_and_gauge lowRiskRaw defaultConfig _ rfl

/-- C2: the risk classification is a total function on scores — every
integer in [0,100] maps to exactly one of Low, Medium, High, with each
band inclusive at its lower bound — and it is monotone: a ≤ b implies the
risk level of a is never more severe than that of b. -/
theorem classification_total_and_monotone (cfg : ScoringConfig) :
    (∀ s : ℤ, 0 ≤ s → s ≤ 100 → ∃! l : RiskLevel, classifyRiskLevel s cfg = l) ∧
    (∀ a b : ℤ, a ≤ b →
      severity (classifyRiskLevel a cfg) ≤ severity (classifyRiskLevel b cfg)) := by
  constructor
  · intro s _ _
    exact ⟨classifyRiskLevel s cfg, rfl, fun y hy => hy.symm⟩
  · intro a b hab
    unfold classifyRiskLevel
    split_ifs <;> simp [severity] <;> omega

/-- Witness for C2: totality at score 55 and monotonicity at the pair
10 ≤ 80 under the default thresholds. -/
theorem classification_total_and_monotone_witness :
    (∃! l : RiskLevel, classifyRiskLevel 55 defaultConfig = l) ∧
    severity (classifyRiskLevel 10 defaultConfig) ≤ severity (classifyRiskLevel 80 defaultConfig) :=
  ⟨(classification_total_and_monotone defaultConfig).1 55 (by decide) (by decide),
   (classification_total_and_monotone defaultConfig).2 10 80 (by decide)⟩

/-- C3 counterexample: the form input that parses to the valid
non-negative value 0 is NOT forwarded unchanged — JavaScript `|| 50`
treats 0 as falsy, so the payload carries 50. -/
theorem monthly_charges_zero_not_preserved :
    payloadMonthlyCharges (some 0) = 50 ∧ payloadMonthlyCharges (some 0) ≠ 0 := by
  decide

/-- C3 amended: the payload carries the parsed monthly_charges value
exactly when it is nonzero; a parse result of NaN or 0 is replaced by the
default 50. -/
theorem monthly_charges_default_on_falsy (v : ℚ) (hv : v ≠ 0) :
    payloadMonthlyCharges (some v) = v ∧
    payloadMonthlyCharges Option.none = 50 ∧
    payloadMonthlyCharges (some 0) = 50 := by
  refine ⟨?_, rfl, by decide⟩
  simp [payloadMonthlyCharges, hv]

/-- Witness for C3 (amended) at the concrete parsed value 25. -/
theorem monthly_charges_default_on_falsy_witness :
    payloadMonthlyCharges (some 25) = 25 ∧
    payloadMonthlyCharges Option.none = 50 ∧
    payloadMonthlyCharges (some 0) = 50 :=
  monthly_charges_default_on_falsy 25 (by decide)

/-- C4: whenever a required numeric field of the payload (tenure, voice
usage, data usage, complaint count) is missing, non-numeric or negative,
the score operation fails with a `ValidationError` and never partially
scores the profile. -/
theorem invalid_numeric_field_fails_validation (raw : RawProfile) (cfg : ScoringConfig)
    (h : requiredNumericFieldsOk raw = false) :
    isValidationError (score raw cfg) = true := by
  unfold score
  split
  · rename_i e he
    unfold validateProfile at he
    split at he
    · rename_i e1 h1
      obtain rfl := requireNonnegInt_error_field h1
      obtain rfl := Except.error.inj he
      rfl
    · rename_i t h1
      split at he
      · rename_i e2 h2
        obtain rfl := requireNonnegRat_error_field h2
        obtain rfl := Except.error.inj he
        rfl
      · rename_i v h2
        split at he
        · rename_i e3 h3
          obtain rfl := requireNonnegRat_error_field h3
          obtain rfl := Except.error.inj he
          rfl
        · rename_i d h3
          split at he
          · rename_i e4 h4
            obtain rfl := requireNonnegInt_error_field h4
            obtain rfl := Except.error.inj he
            rfl
          · rename_i c h4
            simp at he
  · rename_i p hp
    exfalso
    unfold validateProfile at hp
    split at hp
    · simp at hp
    · rename_i t h1
      split at hp
      · simp at hp
      · rename_i v h2
        split at hp
        · simp at hp
        · rename_i d h3
          split at hp
          · simp at hp
          · rename_i c h4
            unfold requiredNumericFieldsOk at h
            rw [requireNonnegInt_ok_any h1, requireNonnegRat_ok_any h2,
              requireNonnegRat_ok_any h3, requireNonnegInt_ok_any h4] at h
            simp at h

/-- Witness for C4: the §8 scenario-4 payload with complaint_count = -1 is
rejected with a ValidationError. -/
theorem invalid_numeric_field_fails_validation_witness :
    requiredNumericFieldsOk negComplaintRaw = false ∧
    isValidationError (score negComplaintRaw defaultConfig) = true :=
  ⟨by decide, invalid_numeric_field_fails_validation negComplaintRaw defaultConfig (by decide)⟩

/-- C5 counterexample: the presentation layer switches on localized labels,
so the engine enum values are NOT mapped to pairwise distinct renderings:
the badge class, icon and gauge colour for the engine value "High"
coincide with those for "Low" (both fall through to the low-severity
default). -/
theorem engine_levels_render_identically :
    getRiskClass "High" = getRiskClass "Low" ∧
    getRiskIcon "High" = getRiskIcon "Low" ∧
    gaugeColor "High" = gaugeColor "Low" ∧
    getRiskClass "High" = "risk-low" := by
  decide

/-- C5 amended: the engine risk_level is one of the three enum values
Low, Medium, High; the presentation layer distinguishes the LOCALIZED
labels — for the localized values Élevé, Moyen and any other label
(e.g. Faible) the badge class, icon and gauge colour are pairwise
distinct. -/
theorem localized_labels_render_distinct :
    (∀ s : ℤ, ∀ cfg : ScoringConfig,
      classifyRiskLevel s cfg = RiskLevel.Low ∨ classifyRiskLevel s cfg = RiskLevel.Medium ∨
        classifyRiskLevel s cfg = RiskLevel.High) ∧
    (getRiskClass "Élevé" ≠ getRiskClass "Moyen" ∧
     getRiskClass "Moyen" ≠ getRiskClass "Faible" ∧
     getRiskClass "Élevé" ≠ getRiskClass "Faible") ∧
    (getRiskIcon "Élevé" ≠ getRiskIcon "Moyen" ∧
     getRiskIcon "Moyen" ≠ getRiskIcon "Faible" ∧
     getRiskIcon "Élevé" ≠ getRiskIcon "Faible") ∧
    (gaugeColor "Élevé" ≠ gaugeColor "Moyen" ∧
     gaugeColor "Moyen" ≠ gaugeColor "Faible" ∧
     gaugeColor "Élevé" ≠ gaugeColor "Faible") := by
  refine ⟨fun s cfg => ?_, by decide, by decide, by decide⟩
  unfold classifyRiskLevel
  split_ifs <;> simp

/-- C6: the score operation is deterministic — two calls with an identical
payload and identical configuration return identical results. -/
theorem score_deterministic (raw : RawProfile) (cfg : ScoringConfig)
    (r₁ r₂ : Except EngineError ScoreResult)
    (h₁ : score raw cfg = r₁) (h₂ : score raw cfg = r₂) : r₁ = r₂ :=
  h₁.symm.trans h₂

/-- Witness for C6 at the concrete low-risk payload. -/
theorem score_deterministic_witness :
    score lowRiskRaw defaultConfig = score lowRiskRaw defaultConfig :=
  score_deterministic lowRiskRaw defaultConfig _ _ rfl rfl

/-- C7: the key set of the factors mapping is the same fixed feature set
for every scored profile and configuration — every feature the Normalizer
evaluates is explained, with no silent omissions. -/
theorem factors_cover_fixed_feature_set (p q : CustomerProfile) (cfg cfg₂ : ScoringConfig) :
    (scoreProfile p cfg).factors.map Prod.fst = factorKeys ∧
    (scoreProfile p cfg).factors.map Prod.fst = (scoreProfile q cfg₂).factors.map Prod.fst :=
  ⟨rfl, rfl⟩

/-- C8: a valid profile in which no factor qualifies as risk-increasing
with high or medium impact scores without error, returns an empty
recommendations list, and the presentation layer renders zero
recommendation items. -/
theorem no_qualifying_factor_gives_empty_recommendations
    (raw : RawProfile) (p : CustomerProfile) (cfg : ScoringConfig)
    (hv : validateProfile raw = Except.ok p)
    (h : ∀ kf ∈ (scoreProfile p cfg).factors, qualifiesForRecommendation kf.2.impact = false) :
    score raw cfg = Except.ok (scoreProfile p cfg) ∧
    (scoreProfile p cfg).recommendations = [] ∧
    renderedRecommendationItems (scoreProfile p cfg).recommendations = [] := by
  have hrec : recommend p cfg = [] := by
    unfold recommend
    have hfil : (contributions p cfg).filter
        (fun kv => qualifiesForRecommendation (impactOf kv.2 cfg)) = [] := by
      rw [List.filter_eq_nil_iff]
      intro kv hkv
      have hmem : (kv.1, ({ message := featureMessage kv.1, impact := impactOf kv.2 cfg } : Factor)) ∈
          (scoreProfile p cfg).factors := by
        show _ ∈ explainFactors p cfg
        unfold explainFactors
        exact List.mem_map_of_mem _ hkv
      have := h _ hmem
      simp at this
      simp [this]
    rw [hfil]
    rfl
  refine ⟨?_, hrec, ?_⟩
  · unfold score
    rw [hv]
  · show renderedRecommendationItems (recommend p cfg) = []
    rw [hrec]
    rfl

/-- Witness for C8: the §8 scenario-1 low-risk profile has no qualifying
factor, scores without error, and yields zero rendered recommendations. -/
theorem no_qualifying_factor_gives_empty_recommendations_witness :
    score lowRiskRaw defaultConfig = Except.ok (scoreProfile lowRiskProfile defaultConfig) ∧
    (scoreProfile lowRiskProfile defaultConfig).recommendations = [] ∧
    renderedRecommendationItems (scoreProfile lowRiskProfile defaultConfig).recommendations = [] :=
  no_qualifying_factor_gives_empty_recommendations lowRiskRaw lowRiskProfile defaultConfig
    rfl (by decide)

/-- C9: toggling a section twice restores exactly the original membership
of include_sections (an involution on membership), and no toggle ever
changes the title field. -/
theorem section_toggle_involutive_on_membership (st : ReportFormData) (sectionId : String) :
    (∀ x : String,
      x ∈ (handleSectionToggle sectionId (handleSectionToggle sectionId st)).include_sections ↔
        x ∈ st.include_sections) ∧
    (handleSectionToggle sectionId st).title = st.title := by
  refine ⟨fun x => ?_, rfl⟩
  by_cases hmem : sectionId ∈ st.include_sections
  · simp only [handleSectionToggle, hmem, if_true]
    have hnot : sectionId ∉ st.include_sections.filter (fun s => s != sectionId) := by
      simp [List.mem_filter]
    simp only [hnot, if_false]
    simp only [List.mem_append, List.mem_filter, List.mem_singleton, bne_iff_ne, ne_eq]
    by_cases hx : x = sectionId
    · subst hx
      simp [hmem]
    · simp [hx]
  · simp only [handleSectionToggle, hmem, if_false]
    have hin : sectionId ∈ st.include_sections ++ [sectionId] := by simp
    simp only [hin, if_true]
    simp only [List.mem_filter, List.mem_append, List.mem_singleton, bne_iff_ne, ne_eq]
    by_cases hx : x = sectionId
    · subst hx
      simp [hmem]
    · simp [hx]

/-- C10: with no section selected, handleGeneratePDF issues no HTTP
request, signals the error toast, leaves the form state unchanged, and
the generate button is disabled. -/
theorem empty_sections_blocks_generate (form : ReportFormData) (loading : Bool)
    (h : form.include_sections = []) :
    (handleGeneratePDF form).httpRequest = Option.none ∧
    (handleGeneratePDF form).emptySectionsError = true ∧
    (handleGeneratePDF form).form = form ∧
    generateButtonDisabled loading form = true := by
  simp [handleGeneratePDF, generateButtonDisabled, h]

/-- Witness for C10 at the concrete all-deselected report form. -/
theorem empty_sections_blocks_generate_witness :
    (handleGeneratePDF emptyReportForm).httpRequest = Option.none ∧
    (handleGeneratePDF emptyReportForm).emptySectionsError = true ∧
    (handleGeneratePDF emptyReportForm).form = emptyReportForm ∧
    generateButtonDisabled false emptyReportForm = true :=
  empty_sections_blocks_generate emptyReportForm false rfl

end DataTelco
